import Mathlib

/-!
Verification of the STG transformation and CURATED snapshot stages of the
spending ETL pipeline.

The Python scripts under `scripts/02_stg_stage` and `scripts/03_curated_stage`
are shallowly embedded here: the row-by-row cleaning helpers become pure Lean
functions, the pandas dataframe pipeline becomes explicit list processing, and
the SQL statements of the snapshot script become list transformations over an
explicit database state.  Nullable values (Python `None` / pandas `NaN`) are
modelled with `Option`; SQL integers with `Int`/`Nat`; monetary values with
`Rat`.
-/

/-! ### Python string primitives

The Python string operations used by the transform script (`strip`, `upper`,
`lower`, `replace`, `in`, splitting at a separator) are implemented here by
structural recursion over the character list of the string, so that every
definition evaluates by kernel reduction. -/

/-- Membership of `needle` as a contiguous substring of `hay`
(Python's `needle in hay`). -/
def strContains (needle hay : String) : Bool :=
  decide (needle.data <:+: hay.data)

/-- Python `str.strip()`: remove leading and trailing whitespace. -/
def pyStrip (s : String) : String :=
  ⟨((s.data.dropWhile Char.isWhitespace).reverse.dropWhile Char.isWhitespace).reverse⟩

/-- Python `str.upper()` (ASCII case mapping suffices for the data model). -/
def pyUpper (s : String) : String :=
  ⟨s.data.map Char.toUpper⟩

/-- Python `str.lower()` (ASCII case mapping suffices for the data model). -/
def pyLower (s : String) : String :=
  ⟨s.data.map Char.toLower⟩

/-- Replace every occurrence of the non-empty pattern `pat` by `rep`,
left to right.  `fuel` bounds the recursion; it is called with the length of
the subject list, which suffices since each step consumes at least one
character. -/
def replaceFuel (pat rep : List Char) : Nat → List Char → List Char
  | 0, cs => cs
  | _ + 1, [] => []
  | n + 1, c :: rest =>
    if pat.isPrefixOf (c :: rest) && !pat.isEmpty then
      rep ++ replaceFuel pat rep n ((c :: rest).drop pat.length)
    else
      c :: replaceFuel pat rep n rest

/-- Python `s.replace(pat, rep)` for a non-empty pattern. -/
def pyReplace (s pat rep : String) : String :=
  ⟨replaceFuel pat.data rep.data s.data.length s.data⟩

/-- Split a character list at every occurrence of `sep`; the result always has
one more chunk than there are separators. -/
def splitListChar (sep : Char) : List Char → List (List Char)
  | [] => [[]]
  | c :: rest =>
    let r := splitListChar sep rest
    if c == sep then [] :: r
    else
      match r with
      | h :: t => (c :: h) :: t
      | [] => [[c]]

/-- Split a string at every occurrence of the separator character. -/
def pySplitChar (sep : Char) (s : String) : List String :=
  (splitListChar sep s.data).map (⟨·⟩)

/-- Python truthiness test used by the cleaning helpers on nullable string
fields: `pd.isna(x) or not x` holds exactly for a missing value or the empty
string. -/
def isBlank : Option String → Bool
  | none => true
  | some s => s == ""

/-- Numeric value of a list of decimal digit characters. -/
def digitsToNat (cs : List Char) : Nat :=
  cs.foldl (fun n c => 10 * n + (c.toNat - 48)) 0

/-- Leading sign of a numeric literal; returns the sign and the rest. -/
def parseSign : List Char → Int × List Char
  | '+' :: rest => (1, rest)
  | '-' :: rest => (-1, rest)
  | cs => (1, cs)

/-- Unsigned decimal part `digits [. digits]` (at least one digit overall),
returning the value and the unconsumed suffix. -/
def parseUnsignedDec (cs : List Char) : Option (Rat × List Char) :=
  let ip := cs.takeWhile Char.isDigit
  let r1 := cs.dropWhile Char.isDigit
  match r1 with
  | '.' :: r2 =>
    let fp := r2.takeWhile Char.isDigit
    let r3 := r2.dropWhile Char.isDigit
    if ip.isEmpty && fp.isEmpty then none
    else some ((digitsToNat ip : Rat) + (digitsToNat fp : Rat) / (10 : Rat) ^ fp.length, r3)
  | _ => if ip.isEmpty then none else some ((digitsToNat ip : Rat), r1)

/-- `decimal.Decimal(s)` on finite numeric strings: optional sign, digits with
an optional fractional part, and an optional exponent.  The special values
(`NaN`, `Infinity`) and digit-grouping underscores accepted by `Decimal` are
outside the model; none of the verified claims depends on them. -/
def parseDecimal (s : String) : Option Rat :=
  let (sg, cs1) := parseSign s.data
  match parseUnsignedDec cs1 with
  | none => none
  | some (m, rest) =>
    match rest with
    | [] => some ((sg : Rat) * m)
    | e :: r1 =>
      if e == 'e' || e == 'E' then
        let (esg, r2) := parseSign r1
        let ed := r2.takeWhile Char.isDigit
        let r3 := r2.dropWhile Char.isDigit
        if ed.isEmpty || !r3.isEmpty then none
        else some ((sg : Rat) * m * (10 : Rat) ^ (esg * (digitsToNat ed : Int)))
      else none

/-- `clean_amount` from `02_transform_and_load_stg.py`: strips the input,
recognises an `SGD` currency marker (uppercasing the string when removing it;
the source re-assigns `currency = 'SGD'` in that branch, identical to the
default, so `currency` is the constant `"SGD"` here), removes `$` and `,`, and
converts the remainder with `Decimal`.  Returns
`(cleaned_amount, currency_code, success_flag)`; any failure yields
`(none, "SGD", false)`. -/
def clean_amount (amountStr : Option String) : Option Rat × String × Bool :=
  match amountStr with
  | none => (none, "SGD", false)
  | some s0 =>
    if s0 == "" then (none, "SGD", false)
    else
      let s1 := pyStrip s0
      let currency := "SGD"
      let s2 :=
        if strContains "SGD" (pyUpper s1) then pyStrip (pyReplace (pyUpper s1) "SGD" "")
        else s1
      let s3 := pyStrip (pyReplace (pyReplace s2 "$" "") "," "")
      match parseDecimal s3 with
      | some q => (some q, currency, true)
      | none => (none, "SGD", false)

/-- The deductions of `calculate_data_quality_score` as a function of the six
tested conditions: start at 100, subtract the per-field penalties, clamp at 0
from below. -/
def scoreOfFlags (amountOk dateOk descBlank personBlank locBlank catBlank : Bool) : Int :=
  let score : Int := 100
  let score := if amountOk = false then score - 30 else score
  let score := if dateOk = false then score - 30 else score
  let score := if descBlank then score - 10 else score
  let score := if personBlank then score - 20 else score
  let score := if locBlank then score - 5 else score
  let score := if catBlank then score - 5 else score
  max 0 score

/-- The fields of a transformed record that `calculate_data_quality_score`
reads. -/
structure ScoreInput where
  is_amount_parsed_successfully : Bool
  is_date_parsed_successfully : Bool
  description : Option String
  person_name : Option String
  location_name : Option String
  category_name : Option String
  deriving Repr, DecidableEq

/-- `calculate_data_quality_score` from `02_transform_and_load_stg.py`. -/
def calculate_data_quality_score (row : ScoreInput) : Int :=
  scoreOfFlags row.is_amount_parsed_successfully row.is_date_parsed_successfully
    (isBlank row.description) (isBlank row.person_name)
    (isBlank row.location_name) (isBlank row.category_name)

lemma scoreOfFlags_spec (a d p q r s : Bool) :
    scoreOfFlags a d p q r s =
      max 0 (100 - (if a then 0 else 30) - (if d then 0 else 30)
        - (if p then 10 else 0) - (if q then 20 else 0)
        - (if r then 5 else 0) - (if s then 5 else 0))
    ∧ 0 ≤ scoreOfFlags a d p q r s ∧ scoreOfFlags a d p q r s ≤ 100 := by
  revert a d p q r s
  decide

/-- C3: the data quality score starts at 100, subtracts 30 for a failed amount
parse, 30 for a failed date parse, 10 for a missing description, 20 for a
missing person name, 5 for a missing location name and 5 for a missing
category name, clamps at 0 from below, and always lies in `0..100`. -/
theorem C3_quality_score_formula_and_range (row : ScoreInput) :
    calculate_data_quality_score row =
      max 0 (100
        - (if row.is_amount_parsed_successfully then 0 else 30)
        - (if row.is_date_parsed_successfully then 0 else 30)
        - (if isBlank row.description then 10 else 0)
        - (if isBlank row.person_name then 20 else 0)
        - (if isBlank row.location_name then 5 else 0)
        - (if isBlank row.category_name then 5 else 0))
    ∧ 0 ≤ calculate_data_quality_score row
    ∧ calculate_data_quality_score row ≤ 100 := by
  exact scoreOfFlags_spec _ _ _ _ _ _

/-- C10: the currency component returned by `clean_amount` is the constant
`"SGD"` on every input — missing, unparseable, or successfully parsed. -/
theorem C10_currency_always_SGD (amountStr : Option String) :
    (clean_amount amountStr).2.1 = "SGD" := by
  unfold clean_amount
  cases amountStr with
  | none => rfl
  | some s0 =>
    dsimp only
    split
    · rfl
    · split <;> rfl

/-! ### Date parsing (`clean_date_improved`) -/

/-- A calendar date as produced by `datetime.date`. -/
structure Date where
  year : Nat
  month : Nat
  day : Nat
  deriving Repr, DecidableEq

/-- Gregorian leap year test. -/
def isLeapYear (y : Nat) : Bool :=
  y % 4 == 0 && (y % 100 != 0 || y % 400 == 0)

/-- Number of days of month `m` of year `y`. -/
def daysInMonth (y m : Nat) : Nat :=
  if m == 2 then (if isLeapYear y then 29 else 28)
  else if m == 4 || m == 6 || m == 9 || m == 11 then 30 else 31

/-- The dates `datetime.date(y, m, d)` accepts without raising `ValueError`. -/
def validDate (y m d : Nat) : Bool :=
  1 ≤ y && y ≤ 9999 && 1 ≤ m && m ≤ 12 && 1 ≤ d && d ≤ daysInMonth y m

/-- `datetime.date(y, m, d)`, `none` when the constructor would raise. -/
def mkDate? (y m d : Nat) : Option Date :=
  if validDate y m d then some ⟨y, m, d⟩ else none

/-- The numeric value of a whole-digit chunk when its length is between
`lo` and `hi`, else `none`. -/
def digitChunk? (lo hi : Nat) (s : String) : Option Nat :=
  if s.data.all Char.isDigit && lo ≤ s.length && s.length ≤ hi then
    some (digitsToNat s.data)
  else none

/-- `strptime` field `%d`: one or two digits with value `1..31`. -/
def parseDayField (s : String) : Option Nat :=
  match digitChunk? 1 2 s with
  | some v => if 1 ≤ v && v ≤ 31 then some v else none
  | none => none

/-- `strptime` field `%m`: one or two digits with value `1..12`. -/
def parseMonthNumField (s : String) : Option Nat :=
  match digitChunk? 1 2 s with
  | some v => if 1 ≤ v && v ≤ 12 then some v else none
  | none => none

/-- `strptime` field `%Y`: exactly four digits. -/
def parseYear4Field (s : String) : Option Nat :=
  digitChunk? 4 4 s

/-- `strptime` field `%y`: exactly two digits, mapped into `1969..2068`
(`00..68` become `20xx`, `69..99` become `19xx`). -/
def parseYear2Field (s : String) : Option Nat :=
  match digitChunk? 2 2 s with
  | some v => some (if v ≤ 68 then 2000 + v else 1900 + v)
  | none => none

/-- Abbreviated month names of `strptime` field `%b` (matched
case-insensitively, C locale). -/
def monthAbbrevs : List String :=
  ["jan", "feb", "mar", "apr", "may", "jun",
   "jul", "aug", "sep", "oct", "nov", "dec"]

/-- `strptime` field `%b`: an abbreviated month name. -/
def parseMonthAbbrevField (s : String) : Option Nat :=
  (monthAbbrevs.findIdx? (fun a => a == pyLower s)).map (· + 1)

/-- How the month chunk of a date format is written. -/
inductive MonthField
  | num
  | abbr
  deriving Repr, DecidableEq

/-- How the year chunk of a date format is written. -/
inductive YearField
  | y4
  | y2
  deriving Repr, DecidableEq

/-- One `strptime` format of the `common_formats` list: a separator character
and the shape of the three chunks (`yearFirst` for the `%Y-%m-%d` shapes,
otherwise day first). -/
structure DateFormat where
  sep : Char
  yearFirst : Bool
  monthField : MonthField
  yearField : YearField
  deriving Repr, DecidableEq

/-- Dispatch on the month chunk shape. -/
def parseMonthField : MonthField → String → Option Nat
  | .num => parseMonthNumField
  | .abbr => parseMonthAbbrevField

/-- Dispatch on the year chunk shape. -/
def parseYearField : YearField → String → Option Nat
  | .y4 => parseYear4Field
  | .y2 => parseYear2Field

/-- `datetime.strptime(s, fmt).date()` for one of the eight explicit formats:
the string must consist of exactly three chunks joined by the format's
separator, each chunk must match its field, and the resulting triple must be a
constructible date (otherwise `ValueError`, i.e. `none`). -/
def tryFormat (fmt : DateFormat) (s : String) : Option Date :=
  match pySplitChar fmt.sep s with
  | [a, b, c] =>
    if fmt.yearFirst then
      match parseYearField fmt.yearField a, parseMonthField fmt.monthField b,
          parseDayField c with
      | some y, some m, some d => mkDate? y m d
      | _, _, _ => none
    else
      match parseDayField a, parseMonthField fmt.monthField b,
          parseYearField fmt.yearField c with
      | some d, some m, some y => mkDate? y m d
      | _, _, _ => none
  | _ => none

/-- The `common_formats` list of `clean_date_improved`, in source order:
`%d-%b-%Y`, `%d/%m/%Y`, `%Y-%m-%d`, `%d/%m/%y`, `%d-%m-%Y`, `%d-%m-%y`,
`%Y/%m/%d`, `%d-%b-%y`. -/
def common_formats : List DateFormat :=
  [⟨'-', false, .abbr, .y4⟩,
   ⟨'/', false, .num, .y4⟩,
   ⟨'-', true, .num, .y4⟩,
   ⟨'/', false, .num, .y2⟩,
   ⟨'-', false, .num, .y4⟩,
   ⟨'-', false, .num, .y2⟩,
   ⟨'/', true, .num, .y4⟩,
   ⟨'-', false, .abbr, .y2⟩]

/-- `clean_date_improved` from `02_transform_and_load_stg.py`.  The
`dateutil.parser.parse(date_str, dayfirst=True)` fallback is third-party
library code, modelled by the function parameter `fallback` (returning `none`
when the library parser raises).  Returns `(date, success_flag)`. -/
def clean_date_improved (fallback : String → Option Date)
    (dateStr : Option String) : Option Date × Bool :=
  match dateStr with
  | none => (none, false)
  | some s0 =>
    if s0 == "" then (none, false)
    else
      let s := pyStrip s0
      match common_formats.findSome? (fun fmt => tryFormat fmt s) with
      | some d => (some d, true)
      | none =>
        match fallback s with
        | some d => (some d, true)
        | none => (none, false)

/-- The claimed format order: DD-MMM-YYYY, DD/MM/YYYY, YYYY-MM-DD, DD/MM/YY,
DD-MM-YYYY, DD-MM-YY, YYYY/MM/DD, DD-MMM-YY. -/
def claimedFormats : List DateFormat :=
  [⟨'-', false, .abbr, .y4⟩,   -- DD-MMM-YYYY
   ⟨'/', false, .num, .y4⟩,      -- DD/MM/YYYY
   ⟨'-', true, .num, .y4⟩,       -- YYYY-MM-DD
   ⟨'/', false, .num, .y2⟩,      -- DD/MM/YY
   ⟨'-', false, .num, .y4⟩,      -- DD-MM-YYYY
   ⟨'-', false, .num, .y2⟩,      -- DD-MM-YY
   ⟨'/', true, .num, .y4⟩,       -- YYYY/MM/DD
   ⟨'-', false, .abbr, .y2⟩]   -- DD-MMM-YY

/-- Modelled from the claim's words: try the eight listed formats in order and
return the first match with flag `true`; otherwise fall back to the library
parser; return `(none, false)` for null, empty, or unparseable input. -/
def clean_date_claimed (fallback : String → Option Date)
    (dateStr : Option String) : Option Date × Bool :=
  match dateStr with
  | none => (none, false)
  | some s0 =>
    if s0 == "" then (none, false)
    else
      match claimedFormats.findSome? (fun fmt => tryFormat fmt (pyStrip s0)) with
      | some d => (some d, true)
      | none =>
        match fallback (pyStrip s0) with
        | some d => (some d, true)
        | none => (none, false)

lemma tryFormat_dBY_example :
    tryFormat ⟨'-', false, .abbr, .y4⟩ "01-Apr-2022" = some ⟨2022, 4, 1⟩ := by
  decide

lemma tryFormat_rejects_invalid_day :
    tryFormat ⟨'-', false, .num, .y4⟩ "31-04-2022" = none := by
  decide

lemma clean_date_example_iso :
    clean_date_improved (fun _ => none) (some "2023-09-28") =
      (some ⟨2023, 9, 28⟩, true) := by
  decide

lemma clean_date_example_two_digit_year :
    clean_date_improved (fun _ => none) (some "21/10/24") =
      (some ⟨2024, 10, 21⟩, true) := by
  decide

/-- C5: `clean_date_improved` is a total function returning a
`(date, success flag)` pair, and it coincides with the claimed behaviour:
the eight explicit formats are tried in the claimed fixed order and the first
match is returned with flag `true`; otherwise the library fallback decides;
null, empty, and unparseable inputs yield `(none, false)` instead of an
exception. -/
theorem C5_clean_date_improved_behaviour (fallback : String → Option Date)
    (dateStr : Option String) :
    clean_date_improved fallback dateStr = clean_date_claimed fallback dateStr := by
  cases dateStr <;> rfl

/-! ### Keyword classifiers -/

/-- Online platform keywords of `classify_location_type`, in source order. -/
def online_keywords : List String :=
  ["shopee", "lazada", "zalora", "amazon", "grab", "foodpanda",
   "udemy", "netflix", "spotify", "online", "taobao", ".com", "web"]

/-- Transport keywords of `classify_location_type`, in source order. -/
def transport_keywords : List String :=
  ["mrt", "bus", "taxi", "grab", "gojek", "station", "interchange"]

/-- Physical-location keywords of `classify_location_type`, in source order. -/
def physical_keywords : List String :=
  ["mall", "restaurant", "cafe", "clinic", "hospital", "court", "market"]

/-- `classify_location_type` from `02_transform_and_load_stg.py`: lowercase
the name and test the three keyword lists in order, defaulting to
`"Physical"`; a falsy (missing or empty) name is `"Unknown"`. -/
def classify_location_type (locationName : Option String) : String :=
  match locationName with
  | none => "Unknown"
  | some s =>
    if s == "" then "Unknown"
    else
      let l := pyLower s
      if online_keywords.any (fun k => strContains k l) then "Online"
      else if transport_keywords.any (fun k => strContains k l) then "Transport"
      else if physical_keywords.any (fun k => strContains k l) then "Physical"
      else "Physical"

/-- `classify_payment_type` from `02_transform_and_load_stg.py`. -/
def classify_payment_type (paymentMethod : Option String) : String :=
  match paymentMethod with
  | none => "Other"
  | some s =>
    if s == "" then "Other"
    else
      let l := pyLower s
      if ["card", "visa", "mastercard", "amex"].any (fun k => strContains k l) then
        "Card"
      else if ["pay", "wallet", "apple", "google", "grab"].any (fun k => strContains k l) then
        "Digital Wallet"
      else if ["ez-link", "nets", "flashpay"].any (fun k => strContains k l) then
        "Transit Card"
      else if ["bank", "transfer", "giro"].any (fun k => strContains k l) then
        "Bank Transfer"
      else "Other"

/-- `classify_category_group` from `02_transform_and_load_stg.py` (membership
tests are whole-string equality, not substring search). -/
def classify_category_group (category : Option String) : String :=
  match category with
  | none => "Other"
  | some s =>
    if s == "" then "Other"
    else
      let l := pyLower s
      if ["groceries", "food", "utilities"].contains l then "Essential"
      else if ["shopping", "entertainment", "dining"].contains l then "Discretionary"
      else if ["transport", "transportation"].contains l then "Transport"
      else if ["healthcare", "medical", "health"].contains l then "Healthcare"
      else if ["education", "learning", "books"].contains l then "Education"
      else "Other"

/-- Modelled from the claim's words for C6: online keywords take precedence
over transport keywords, which take precedence over physical keywords; a name
matching no keyword is `"Physical"`; a missing or empty name is `"Unknown"`.
(The code's explicit physical-keyword branch and its default branch both
return `"Physical"`, so they are merged here.) -/
def location_type_claimed (locationName : Option String) : String :=
  match locationName with
  | none => "Unknown"
  | some s =>
    if s == "" then "Unknown"
    else
      let l := pyLower s
      if online_keywords.any (fun k => strContains k l) then "Online"
      else if transport_keywords.any (fun k => strContains k l) then "Transport"
      else "Physical"

/-- C6: the location classifier returns exactly one of the four type names,
with the claimed keyword precedence (online before transport before physical),
`"Unknown"` for a missing or empty name, `"Physical"` for a non-empty name
matching no keyword; a name containing `grab` — a keyword of both the online
and the transport list — is classified `"Online"`. -/
theorem C6_location_classifier (locationName : Option String) :
    (classify_location_type locationName = "Online" ∨
     classify_location_type locationName = "Transport" ∨
     classify_location_type locationName = "Physical" ∨
     classify_location_type locationName = "Unknown")
    ∧ classify_location_type locationName = location_type_claimed locationName
    ∧ classify_location_type (some "Grab Transport Hub") = "Online"
    ∧ classify_location_type none = "Unknown"
    ∧ classify_location_type (some "") = "Unknown" := by
  refine ⟨?_, ?_, by decide, rfl, by decide⟩
  · unfold classify_location_type
    cases locationName with
    | none => simp
    | some s =>
      dsimp only
      split
      · simp
      · split
        · simp
        · split
          · simp
          · split <;> simp
  · unfold classify_location_type location_type_claimed
    cases locationName with
    | none => rfl
    | some s =>
      dsimp only
      split
      · rfl
      · split
        · rfl
        · split
          · rfl
          · split <;> rfl

/-! ### The STG transform pipeline (STEP 2 to STEP 4 of
`02_transform_and_load_stg.py`) -/

/-- `datetime.date.strftime('%A')`: the full weekday name, computed by
Zeller's congruence. -/
def dayOfWeekName (dt : Date) : String :=
  let m := if dt.month ≤ 2 then dt.month + 12 else dt.month
  let y := if dt.month ≤ 2 then dt.year - 1 else dt.year
  let k := y % 100
  let j := y / 100
  let h := (dt.day + (13 * (m + 1)) / 5 + k + k / 4 + j / 4 + 5 * j) % 7
  ["Saturday", "Sunday", "Monday", "Tuesday",
   "Wednesday", "Thursday", "Friday"].getD h ""

/-- One row of `src_daily_spending` as extracted in STEP 1 (the fields the
transform reads; `source_file` and `load_batch_id` are carried through
unused). -/
structure SrcRecord where
  src_id : Nat
  person_name : Option String
  spending_date : Option String
  category : Option String
  amount : Option String
  location : Option String
  description : Option String
  payment_method : Option String
  deriving Repr, DecidableEq

/-- One row of the transformed dataframe after STEP 2: the cleaned columns the
script adds to the source row. -/
structure TransRow where
  src_id : Nat
  amount_raw : Option String
  amount_cleaned : Option Rat
  currency_code : String
  is_amount_parsed_successfully : Bool
  spending_date_parsed : Option Date
  is_date_parsed_successfully : Bool
  spending_year : Option Nat
  spending_month : Option Nat
  spending_day : Option Nat
  spending_quarter : Option Nat
  spending_day_of_week : Option String
  location_type : String
  payment_type : String
  category_group : String
  person_name : Option String
  location_name : Option String
  category_name : Option String
  payment_method_name : Option String
  description : Option String
  data_quality_score : Int
  transform_batch_id : String
  deriving Repr, DecidableEq

/-- STEP 2 of `02_transform_and_load_stg.py` on one source row: clean the
amount and the date, derive the date components, classify location, payment
and category, strip the name fields, compute the quality score, and tag the
row with the run's batch id. -/
def transformRow (batchId : String) (fallback : String → Option Date)
    (r : SrcRecord) : TransRow :=
  let a := clean_amount r.amount
  let d := clean_date_improved fallback r.spending_date
  let parsed := d.1
  let personName := r.person_name.map pyStrip
  let locationName := r.location.map pyStrip
  let categoryName := r.category.map pyStrip
  let paymentName := r.payment_method.map pyStrip
  { src_id := r.src_id
    amount_raw := r.amount
    amount_cleaned := a.1
    currency_code := a.2.1
    is_amount_parsed_successfully := a.2.2
    spending_date_parsed := parsed
    is_date_parsed_successfully := d.2
    spending_year := parsed.map (·.year)
    spending_month := parsed.map (·.month)
    spending_day := parsed.map (·.day)
    spending_quarter := parsed.map (fun x => (x.month - 1) / 3 + 1)
    spending_day_of_week := parsed.map dayOfWeekName
    location_type := classify_location_type r.location
    payment_type := classify_payment_type r.payment_method
    category_group := classify_category_group r.category
    person_name := personName
    location_name := locationName
    category_name := categoryName
    payment_method_name := paymentName
    description := r.description
    data_quality_score := calculate_data_quality_score
      ⟨a.2.2, d.2, r.description, personName, locationName, categoryName⟩
    transform_batch_id := batchId }

/-- The `df_valid` filter: keep the rows whose amount and date both parsed. -/
def df_valid (rows : List TransRow) : List TransRow :=
  rows.filter (fun t =>
    t.is_amount_parsed_successfully && t.is_date_parsed_successfully)

/-- C8 (amended): the parse flags and the data quality score are
deterministic per record for a fixed library fallback parser.  Two transform
runs (arbitrary batch ids, the same fallback — in particular any two
evaluations within one run) over records with equal amount string, date
string, description, person name, location and category produce equal
amount-parse flags, equal date-parse flags, and equal quality scores —
whatever the remaining fields (payment method, src id) are.  Independence
from the run's wall-clock time fails, because the `dateutil` fallback reads
the current date; see `C8_not_time_independent_counterexample`. -/
theorem C8_score_deterministic (fallback : String → Option Date)
    (batch1 batch2 : String) (r1 r2 : SrcRecord)
    (hamt : r1.amount = r2.amount)
    (hdate : r1.spending_date = r2.spending_date)
    (hdesc : r1.description = r2.description)
    (hperson : r1.person_name = r2.person_name)
    (hloc : r1.location = r2.location)
    (hcat : r1.category = r2.category) :
    (transformRow batch1 fallback r1).is_amount_parsed_successfully
        = (transformRow batch2 fallback r2).is_amount_parsed_successfully
    ∧ (transformRow batch1 fallback r1).is_date_parsed_successfully
        = (transformRow batch2 fallback r2).is_date_parsed_successfully
    ∧ (transformRow batch1 fallback r1).data_quality_score
        = (transformRow batch2 fallback r2).data_quality_score := by
  cases r1
  cases r2
  simp only [SrcRecord.mk.injEq] at *
  subst hamt hdate hdesc hperson hloc hcat
  exact ⟨rfl, rfl, rfl⟩

/-- Concrete instance for C8: the same record fields under different batch ids
and a different payment method give the same flags and score. -/
theorem C8_score_deterministic_witness :
    (transformRow "STG_TRANSFORM_20251010_1" (fun _ => none)
        ⟨1, some "Alice", some "01-Apr-2022", some "Food", some "$40.10",
         some "VivoCity Mall", some "Lunch", some "Visa Card"⟩).is_amount_parsed_successfully
      = (transformRow "STG_TRANSFORM_20251011_2" (fun _ => none)
        ⟨2, some "Alice", some "01-Apr-2022", some "Food", some "$40.10",
         some "VivoCity Mall", some "Lunch", some "GrabPay"⟩).is_amount_parsed_successfully
    ∧ (transformRow "STG_TRANSFORM_20251010_1" (fun _ => none)
        ⟨1, some "Alice", some "01-Apr-2022", some "Food", some "$40.10",
         some "VivoCity Mall", some "Lunch", some "Visa Card"⟩).is_date_parsed_successfully
      = (transformRow "STG_TRANSFORM_20251011_2" (fun _ => none)
        ⟨2, some "Alice", some "01-Apr-2022", some "Food", some "$40.10",
         some "VivoCity Mall", some "Lunch", some "GrabPay"⟩).is_date_parsed_successfully
    ∧ (transformRow "STG_TRANSFORM_20251010_1" (fun _ => none)
        ⟨1, some "Alice", some "01-Apr-2022", some "Food", some "$40.10",
         some "VivoCity Mall", some "Lunch", some "Visa Card"⟩).data_quality_score
      = (transformRow "STG_TRANSFORM_20251011_2" (fun _ => none)
        ⟨2, some "Alice", some "01-Apr-2022", some "Food", some "$40.10",
         some "VivoCity Mall", some "Lunch", some "GrabPay"⟩).data_quality_score :=
  C8_score_deterministic (fun _ => none)
    "STG_TRANSFORM_20251010_1" "STG_TRANSFORM_20251011_2"
    ⟨1, some "Alice", some "01-Apr-2022", some "Food", some "$40.10",
     some "VivoCity Mall", some "Lunch", some "Visa Card"⟩
    ⟨2, some "Alice", some "01-Apr-2022", some "Food", some "$40.10",
     some "VivoCity Mall", some "Lunch", some "GrabPay"⟩
    rfl rfl rfl rfl rfl rfl

/-- The fragment of `dateutil.parser.parse(date_str, dayfirst=True)` that the
counterexample needs, following the library's documented behaviour: date
components missing from the input are filled from the default, which is
`datetime.now()` when no `default=` is passed — as in `clean_date_improved`.
For an input of the form `"D/M"` (day and month only, day first), the year is
taken from the current date and the assembled date must be constructible;
inputs of any other shape are outside this fragment and map to `none`. -/
def dateutilDayMonth (now : Date) (s : String) : Option Date :=
  match pySplitChar '/' s with
  | [a, b] =>
    match parseDayField a, parseMonthNumField b with
    | some d, some m => mkDate? now.year m d
    | _, _ => none
  | _ => none

/-- Counterexample to C8 as stated: the results are not independent of when
the run happens.  The date string `"29/02"` matches none of the eight
explicit formats (they all need three chunks), so it reaches the `dateutil`
fallback, which completes it with the current year: in a run during the leap
year 2024 the parse succeeds, in a run during 2025 it raises — so the very
same source record gets date-parse flag `true` and score `100` in one run
and flag `false` and score `70` in the other. -/
theorem C8_not_time_independent_counterexample :
    (transformRow "B1" (dateutilDayMonth ⟨2024, 7, 1⟩)
        ⟨1, some "Alice", some "29/02", some "Food", some "5", some "Mall",
         some "Lunch", some "Visa"⟩).is_date_parsed_successfully = true
    ∧ (transformRow "B2" (dateutilDayMonth ⟨2025, 7, 1⟩)
        ⟨1, some "Alice", some "29/02", some "Food", some "5", some "Mall",
         some "Lunch", some "Visa"⟩).is_date_parsed_successfully = false
    ∧ (transformRow "B1" (dateutilDayMonth ⟨2024, 7, 1⟩)
        ⟨1, some "Alice", some "29/02", some "Food", some "5", some "Mall",
         some "Lunch", some "Visa"⟩).data_quality_score
      ≠ (transformRow "B2" (dateutilDayMonth ⟨2025, 7, 1⟩)
        ⟨1, some "Alice", some "29/02", some "Food", some "5", some "Mall",
         some "Lunch", some "Visa"⟩).data_quality_score := by
  decide

/-! ### Dimension tables and the fact-table load -/

/-- A row of `stg_dim_person` (`person_map`). -/
structure PersonDim where
  person_id : Nat
  person_name : Option String
  deriving Repr, DecidableEq

/-- A row of `stg_dim_location` (`location_map` carries only id and name). -/
structure LocationDim where
  location_id : Nat
  location_name : Option String
  location_type : String
  deriving Repr, DecidableEq

/-- A row of `stg_dim_category`. -/
structure CategoryDim where
  category_id : Nat
  category_name : Option String
  category_group : String
  deriving Repr, DecidableEq

/-- A row of `stg_dim_payment_method`. -/
structure PaymentDim where
  payment_method_id : Nat
  payment_method_name : Option String
  payment_type : String
  deriving Repr, DecidableEq

/-- The pandas left merge of a fact row against `person_map`: the dimension
table has a unique key on the name, so the merge resolves to the first (only)
row of equal name, or to a missing id. -/
def findPersonId (ps : List PersonDim) (name : Option String) : Option Nat :=
  (ps.find? (fun p => p.person_name == name)).map (·.person_id)

/-- Left merge against `location_map` on `location_name`. -/
def findLocationId (ls : List LocationDim) (name : Option String) : Option Nat :=
  (ls.find? (fun l => l.location_name == name)).map (·.location_id)

/-- Left merge against `category_map` on `category_name`. -/
def findCategoryId (cs : List CategoryDim) (name : Option String) : Option Nat :=
  (cs.find? (fun c => c.category_name == name)).map (·.category_id)

/-- Left merge against `payment_map` on `payment_method_name`. -/
def findPaymentId (ms : List PaymentDim) (name : Option String) : Option Nat :=
  (ms.find? (fun m => m.payment_method_name == name)).map (·.payment_method_id)

/-- A row of `stg_fact_spending` as inserted by the STEP 4 loop.
`spending_id` is the serial key the database assigns. -/
structure FactRecord where
  spending_id : Nat
  person_id : Nat
  location_id : Nat
  category_id : Nat
  payment_method_id : Nat
  spending_date : Option Date
  spending_year : Nat
  spending_month : Nat
  spending_day : Nat
  spending_quarter : Nat
  spending_day_of_week : Option String
  amount_raw : Option String
  amount_cleaned : Rat
  currency_code : String
  description : Option String
  is_amount_parsed_successfully : Bool
  is_date_parsed_successfully : Bool
  data_quality_score : Int
  src_id : Nat
  transform_batch_id : String
  deriving Repr, DecidableEq

/-- The record dictionary built for the insert of one merged row.  The
`int(...)`/`float(...)` conversions of the script require present values;
on every row that reaches the load the parses succeeded, so the `getD`
defaults are never exercised. -/
def buildFactRecord (t : TransRow) (pid lid cid mid : Nat) : FactRecord :=
  { spending_id := 0
    person_id := pid
    location_id := lid
    category_id := cid
    payment_method_id := mid
    spending_date := t.spending_date_parsed
    spending_year := t.spending_year.getD 0
    spending_month := t.spending_month.getD 0
    spending_day := t.spending_day.getD 0
    spending_quarter := t.spending_quarter.getD 0
    spending_day_of_week := t.spending_day_of_week
    amount_raw := t.amount_raw
    amount_cleaned := t.amount_cleaned.getD 0
    currency_code := t.currency_code
    description := t.description
    is_amount_parsed_successfully := t.is_amount_parsed_successfully
    is_date_parsed_successfully := t.is_date_parsed_successfully
    data_quality_score := t.data_quality_score
    src_id := t.src_id
    transform_batch_id := t.transform_batch_id }

/-- Merge one valid row against the four dimension maps; the row survives
exactly when all four keys resolve (the script's conditional
`dropna(subset=[...])` removes the others before the insert loop). -/
def resolveFact (persons : List PersonDim) (locs : List LocationDim)
    (cats : List CategoryDim) (pays : List PaymentDim)
    (t : TransRow) : Option FactRecord :=
  match findPersonId persons t.person_name, findLocationId locs t.location_name,
      findCategoryId cats t.category_name,
      findPaymentId pays t.payment_method_name with
  | some pid, some lid, some cid, some mid =>
    some (buildFactRecord t pid lid cid mid)
  | _, _, _, _ => none

/-- The STEP 4 load: merge every valid row, drop the unresolved ones, insert
the rest. -/
def mkFactRecords (persons : List PersonDim) (locs : List LocationDim)
    (cats : List CategoryDim) (pays : List PaymentDim)
    (rows : List TransRow) : List FactRecord :=
  rows.filterMap (resolveFact persons locs cats pays)

/-- The whole transform-and-load run over the extracted source rows: STEP 2
transform, the `df_valid` filter, the STEP 4 merge/drop/insert (the dimension
maps are the contents of the four staging dimension tables as read back in
STEP 3), with the database assigning serial `spending_id`s `1, 2, ...`. -/
def stg_fact_load (batchId : String) (fallback : String → Option Date)
    (src : List SrcRecord) (persons : List PersonDim) (locs : List LocationDim)
    (cats : List CategoryDim) (pays : List PaymentDim) : List FactRecord :=
  (mkFactRecords persons locs cats pays
      (df_valid (src.map (transformRow batchId fallback)))).enum.map
    (fun p => { p.2 with spending_id := p.1 + 1 })

lemma length_filterMap_eq_length_filter_isSome {α β : Type} (f : α → Option β)
    (l : List α) :
    (l.filterMap f).length = (l.filter (fun x => (f x).isSome)).length := by
  induction l with
  | nil => rfl
  | cons x xs ih =>
    cases h : f x <;> simp [List.filterMap_cons, List.filter_cons, h, ih]

/-- C7: every record the fact load inserts comes from a merged row whose four
dimension keys all resolved, and each of its ids exists in the corresponding
dimension table; exactly the resolvable rows are inserted (the count of
inserted records is the count of resolvable rows, and every resolvable row's
record is inserted), so unresolved rows are dropped rather than inserted. -/
theorem C7_dimension_reconciliation (persons : List PersonDim)
    (locs : List LocationDim) (cats : List CategoryDim) (pays : List PaymentDim)
    (rows : List TransRow) (fr : FactRecord)
    (hfr : fr ∈ mkFactRecords persons locs cats pays rows) :
    (∃ t ∈ rows, resolveFact persons locs cats pays t = some fr)
    ∧ (∃ p ∈ persons, p.person_id = fr.person_id)
    ∧ (∃ l ∈ locs, l.location_id = fr.location_id)
    ∧ (∃ c ∈ cats, c.category_id = fr.category_id)
    ∧ (∃ m ∈ pays, m.payment_method_id = fr.payment_method_id)
    ∧ (mkFactRecords persons locs cats pays rows).length
        = (rows.filter (fun t => (resolveFact persons locs cats pays t).isSome)).length
    ∧ (∀ t ∈ rows, ∀ fr2, resolveFact persons locs cats pays t = some fr2 →
        fr2 ∈ mkFactRecords persons locs cats pays rows) := by
  obtain ⟨t, ht, hres⟩ := List.mem_filterMap.1 hfr
  have hids : (∃ p ∈ persons, p.person_id = fr.person_id)
      ∧ (∃ l ∈ locs, l.location_id = fr.location_id)
      ∧ (∃ c ∈ cats, c.category_id = fr.category_id)
      ∧ (∃ m ∈ pays, m.payment_method_id = fr.payment_method_id) := by
    unfold resolveFact at hres
    split at hres
    case _ pid lid cid mid hP hL hC hM =>
      obtain ⟨rfl⟩ := Option.some.inj hres
      obtain ⟨p, hp, hpid⟩ := Option.map_eq_some'.1 hP
      obtain ⟨l, hl, hlid⟩ := Option.map_eq_some'.1 hL
      obtain ⟨c, hc, hcid⟩ := Option.map_eq_some'.1 hC
      obtain ⟨m, hm, hmid⟩ := Option.map_eq_some'.1 hM
      exact ⟨⟨p, List.mem_of_find?_eq_some hp, hpid⟩,
        ⟨l, List.mem_of_find?_eq_some hl, hlid⟩,
        ⟨c, List.mem_of_find?_eq_some hc, hcid⟩,
        ⟨m, List.mem_of_find?_eq_some hm, hmid⟩⟩
    case _ => exact absurd hres (by simp)
  refine ⟨⟨t, ht, hres⟩, hids.1, hids.2.1, hids.2.2.1, hids.2.2.2, ?_, ?_⟩
  · exact length_filterMap_eq_length_filter_isSome _ _
  · intro t2 ht2 fr2 hres2
    exact List.mem_filterMap.2 ⟨t2, ht2, hres2⟩

lemma scoreOfFlags_ge_60 (p q r s : Bool) :
    60 ≤ scoreOfFlags true true p q r s := by
  revert p q r s
  decide

/-- C9: every record the transform-and-load run inserts into
`stg_fact_spending` has both parse-success flags `true` (the `df_valid`
filter removed the failures before the load), and its data quality score is
at least 60. -/
theorem C9_loaded_rows_parsed_and_score_ge_60 (batchId : String)
    (fallback : String → Option Date) (src : List SrcRecord)
    (persons : List PersonDim) (locs : List LocationDim)
    (cats : List CategoryDim) (pays : List PaymentDim) (fr : FactRecord)
    (hfr : fr ∈ stg_fact_load batchId fallback src persons locs cats pays) :
    fr.is_amount_parsed_successfully = true
    ∧ fr.is_date_parsed_successfully = true
    ∧ 60 ≤ fr.data_quality_score := by
  unfold stg_fact_load at hfr
  obtain ⟨⟨i, r⟩, hp, rfl⟩ := List.mem_map.1 hfr
  have hr : r ∈ mkFactRecords persons locs cats pays
      (df_valid (src.map (transformRow batchId fallback))) := by
    have := List.mem_enum_iff_getElem?.1 hp
    exact List.getElem?_mem this
  obtain ⟨t, ht, hres⟩ := List.mem_filterMap.1 hr
  obtain ⟨htl, hcond⟩ := List.mem_filter.1 ht
  rw [Bool.and_eq_true] at hcond
  obtain ⟨ha, hd⟩ := hcond
  obtain ⟨r0, _, rfl⟩ := List.mem_map.1 htl
  unfold resolveFact at hres
  split at hres
  case _ pid lid cid mid hP hL hC hM =>
    obtain ⟨rfl⟩ := Option.some.inj hres
    refine ⟨ha, hd, ?_⟩
    have hsc : (buildFactRecord (transformRow batchId fallback r0) pid lid cid mid).data_quality_score
        = scoreOfFlags
            ((transformRow batchId fallback r0).is_amount_parsed_successfully)
            ((transformRow batchId fallback r0).is_date_parsed_successfully)
            (isBlank r0.description) (isBlank (r0.person_name.map pyStrip))
            (isBlank (r0.location.map pyStrip)) (isBlank (r0.category.map pyStrip)) := rfl
    show 60 ≤ (buildFactRecord (transformRow batchId fallback r0) pid lid cid mid).data_quality_score
    rw [hsc, ha, hd]
    exact scoreOfFlags_ge_60 _ _ _ _
  case _ => exact absurd hres (by simp)

/-- A concrete valid transformed row for the C7 instance. -/
def c7row : TransRow :=
  { src_id := 1
    amount_raw := some "5"
    amount_cleaned := some 5
    currency_code := "SGD"
    is_amount_parsed_successfully := true
    spending_date_parsed := some ⟨2022, 4, 1⟩
    is_date_parsed_successfully := true
    spending_year := some 2022
    spending_month := some 4
    spending_day := some 1
    spending_quarter := some 2
    spending_day_of_week := some "Friday"
    location_type := "Physical"
    payment_type := "Card"
    category_group := "Essential"
    person_name := some "Alice"
    location_name := some "Mall"
    category_name := some "Food"
    payment_method_name := some "Visa"
    description := some "Lunch"
    data_quality_score := 100
    transform_batch_id := "B" }

/-- The fact record the load builds from `c7row`. -/
def c7fact : FactRecord := buildFactRecord c7row 1 2 3 4

/-- Concrete instance for C7: on a one-row load against singleton dimension
tables, the inserted record's ids exist in the dimension tables and exactly
the resolvable rows are inserted. -/
theorem C7_dimension_reconciliation_witness :
    (∃ t ∈ [c7row],
        resolveFact [⟨1, some "Alice"⟩] [⟨2, some "Mall", "Physical"⟩]
          [⟨3, some "Food", "Essential"⟩] [⟨4, some "Visa", "Card"⟩] t = some c7fact)
    ∧ (∃ p ∈ [(⟨1, some "Alice"⟩ : PersonDim)], p.person_id = c7fact.person_id)
    ∧ (∃ l ∈ [(⟨2, some "Mall", "Physical"⟩ : LocationDim)],
        l.location_id = c7fact.location_id)
    ∧ (∃ c ∈ [(⟨3, some "Food", "Essential"⟩ : CategoryDim)],
        c.category_id = c7fact.category_id)
    ∧ (∃ m ∈ [(⟨4, some "Visa", "Card"⟩ : PaymentDim)],
        m.payment_method_id = c7fact.payment_method_id)
    ∧ (mkFactRecords [⟨1, some "Alice"⟩] [⟨2, some "Mall", "Physical"⟩]
          [⟨3, some "Food", "Essential"⟩] [⟨4, some "Visa", "Card"⟩] [c7row]).length
        = ([c7row].filter (fun t =>
            (resolveFact [⟨1, some "Alice"⟩] [⟨2, some "Mall", "Physical"⟩]
              [⟨3, some "Food", "Essential"⟩] [⟨4, some "Visa", "Card"⟩] t).isSome)).length
    ∧ (∀ t ∈ [c7row], ∀ fr2,
        resolveFact [⟨1, some "Alice"⟩] [⟨2, some "Mall", "Physical"⟩]
          [⟨3, some "Food", "Essential"⟩] [⟨4, some "Visa", "Card"⟩] t = some fr2 →
        fr2 ∈ mkFactRecords [⟨1, some "Alice"⟩] [⟨2, some "Mall", "Physical"⟩]
          [⟨3, some "Food", "Essential"⟩] [⟨4, some "Visa", "Card"⟩] [c7row]) :=
  C7_dimension_reconciliation [⟨1, some "Alice"⟩] [⟨2, some "Mall", "Physical"⟩]
    [⟨3, some "Food", "Essential"⟩] [⟨4, some "Visa", "Card"⟩] [c7row] c7fact
    (List.Mem.head _)

/-- A concrete source record for the C9 instance. -/
def c9src : SrcRecord :=
  ⟨1, some "Alice", some "01-Apr-2022", some "Food", some "$40.10",
   some "VivoCity Mall", some "Lunch", some "Visa Card"⟩

/-- The fact record the full run loads from `c9src`. -/
def c9fact : FactRecord :=
  { (buildFactRecord (transformRow "B" (fun _ => none) c9src) 1 2 3 4) with
    spending_id := 1 }

/-- Concrete instance for C9: the record the full transform-and-load run
inserts from one cleanly parsing source row has both flags set and a score of
at least 60. -/
theorem C9_loaded_rows_parsed_and_score_ge_60_witness :
    c9fact.is_amount_parsed_successfully = true
    ∧ c9fact.is_date_parsed_successfully = true
    ∧ 60 ≤ c9fact.data_quality_score :=
  C9_loaded_rows_parsed_and_score_ge_60 "B" (fun _ => none) [c9src]
    [⟨1, some "Alice"⟩] [⟨2, some "VivoCity Mall", "Physical"⟩]
    [⟨3, some "Food", "Essential"⟩] [⟨4, some "Visa Card", "Card"⟩] c9fact
    (List.Mem.head _)

/-! ### The CURATED snapshot stage (`02_create_snapshot.py`) -/

/-- The staging database state the snapshot script reads: the fact table and
the four dimension tables. -/
structure StgDB where
  fact : List FactRecord
  persons : List PersonDim
  categories : List CategoryDim
  locations : List LocationDim
  payments : List PaymentDim
  deriving Repr, DecidableEq

/-- One row of `curated_spending_snapshots`. -/
structure CurRow where
  snapshot_version : Int
  snapshot_date : String
  snapshot_batch_id : String
  is_latest : Int
  src_id : Nat
  stg_spending_id : Nat
  person_id : Nat
  category_id : Nat
  location_id : Nat
  payment_method_id : Nat
  person_name : Option String
  category_name : Option String
  category_group : String
  location_name : Option String
  location_type : String
  payment_method_name : Option String
  payment_type : String
  spending_date : Option Date
  spending_year : Nat
  spending_month : Nat
  spending_quarter : Nat
  spending_day_of_week : Int
  amount_cleaned : Rat
  currency_code : String
  description : Option String
  data_quality_score : Int
  deriving Repr, DecidableEq

/-- The `CASE f.spending_day_of_week ... END` conversion of the insert query:
weekday names become `1..7`, anything else (`NULL` included) becomes `0`. -/
def dayOfWeekCase (dow : Option String) : Int :=
  match dow with
  | some "Monday" => 1
  | some "Tuesday" => 2
  | some "Wednesday" => 3
  | some "Thursday" => 4
  | some "Friday" => 5
  | some "Saturday" => 6
  | some "Sunday" => 7
  | _ => 0

/-- The row the `INSERT ... SELECT` of STEP 4 produces for fact row `f`
joined with dimension rows `p`, `c`, `l`, `pm`. -/
def mkCurRow (version : Int) (snapDate batchId : String) (f : FactRecord)
    (p : PersonDim) (c : CategoryDim) (l : LocationDim) (pm : PaymentDim) :
    CurRow :=
  { snapshot_version := version
    snapshot_date := snapDate
    snapshot_batch_id := batchId
    is_latest := 1
    src_id := f.src_id
    stg_spending_id := f.spending_id
    person_id := f.person_id
    category_id := f.category_id
    location_id := f.location_id
    payment_method_id := f.payment_method_id
    person_name := p.person_name
    category_name := c.category_name
    category_group := c.category_group
    location_name := l.location_name
    location_type := l.location_type
    payment_method_name := pm.payment_method_name
    payment_type := pm.payment_type
    spending_date := f.spending_date
    spending_year := f.spending_year
    spending_month := f.spending_month
    spending_quarter := f.spending_quarter
    spending_day_of_week := dayOfWeekCase f.spending_day_of_week
    amount_cleaned := f.amount_cleaned
    currency_code := f.currency_code
    description := f.description
    data_quality_score := f.data_quality_score }

/-- The `INSERT INTO curated_spending_snapshots ... SELECT ... FROM
stg_fact_spending f JOIN stg_dim_person p ON ... JOIN ... ` of STEP 4: the
inner joins pair every fact row with every dimension row of equal key. -/
def snapshotSelect (version : Int) (snapDate batchId : String)
    (stg : StgDB) : List CurRow :=
  stg.fact.flatMap fun f =>
    (stg.persons.filter (fun p => p.person_id == f.person_id)).flatMap fun p =>
      (stg.categories.filter (fun c => c.category_id == f.category_id)).flatMap fun c =>
        (stg.locations.filter (fun l => l.location_id == f.location_id)).flatMap fun l =>
          (stg.payments.filter
              (fun pm => pm.payment_method_id == f.payment_method_id)).map fun pm =>
            mkCurRow version snapDate batchId f p c l pm

/-- STEP 1's `COALESCE(MAX(snapshot_version), 0)`: the maximum version among
the existing rows, `0` for an empty table. -/
def maxVersion (cur : List CurRow) : Int :=
  match cur.map (·.snapshot_version) with
  | [] => 0
  | v :: vs => vs.foldl max v

/-- STEP 1's `next_version = current_max_version + 1`. -/
def nextVersion (cur : List CurRow) : Int :=
  maxVersion cur + 1

/-- STEP 1's `COUNT(DISTINCT snapshot_version)`. -/
def versionCount (cur : List CurRow) : Nat :=
  ((cur.map (·.snapshot_version)).dedup).length

/-- The STEP 3 `UPDATE curated_spending_snapshots SET is_latest = 0 WHERE
is_latest = 1` applied to one row. -/
def flipRow (r : CurRow) : CurRow :=
  if r.is_latest = 1 then { r with is_latest := 0 } else r

/-- The STEP 3 update applied to the whole table. -/
def applyFlip (cur : List CurRow) : List CurRow :=
  cur.map flipRow

/-- The table state after STEP 3: the update runs only when STEP 1 saw at
least one existing version. -/
def step3Result (cur : List CurRow) : List CurRow :=
  if 0 < versionCount cur then applyFlip cur else cur

/-- The point at which an injected database error aborts the run. -/
inductive FailPoint
  | duringFlip
  | duringInsert
  deriving Repr, DecidableEq

/-- The body of the STEP 3 transaction: perform the conditional update, then
raise if the injected error hits this step.  (The in-transaction verification
that no `is_latest = 1` row remains cannot fail after the update and is
omitted.) -/
def step3Body (failHere : Bool) (vc : Nat) (cur : List CurRow) :
    Except Unit (List CurRow) :=
  let cur1 := if 0 < vc then applyFlip cur else cur
  if failHere then .error () else .ok cur1

/-- The body of the STEP 4 transaction: insert the selected rows, then raise
if the injected error hits this step.  (The in-transaction count verification
compares the insert's row count with itself and cannot fail; it is omitted.) -/
def step4Body (failHere : Bool) (version : Int) (snapDate batchId : String)
    (stg : StgDB) (cur : List CurRow) : Except Unit (List CurRow) :=
  let cur1 := cur ++ snapshotSelect version snapDate batchId stg
  if failHere then .error () else .ok cur1

/-- `conn.begin()` / `trans.commit()` / `trans.rollback()`: run the body on
the current table; commit its result on success, discard the transaction's
writes and report failure otherwise. -/
def runTransaction (body : List CurRow → Except Unit (List CurRow))
    (cur : List CurRow) : List CurRow × Bool :=
  match body cur with
  | .ok cur2 => (cur2, true)
  | .error _ => (cur, false)

/-- Outcome of a snapshot-script run: the final contents of
`curated_spending_snapshots` and the process exit code. -/
structure RunResult where
  curated : List CurRow
  exitCode : Nat
  deriving Repr, DecidableEq

/-- The snapshot script `02_create_snapshot.py` on database state
`(stg, cur)`: exit 1 if staging is empty (STEP 2); otherwise flip the
`is_latest` flags in one transaction (STEP 3) and insert the new version in a
second transaction (STEP 4), exiting 1 with the transaction rolled back if a
database error hits either step, and exiting 0 on success. -/
def runSnapshot (failAt : Option FailPoint) (stg : StgDB) (cur : List CurRow)
    (snapDate batchId : String) : RunResult :=
  if stg.fact.isEmpty then ⟨cur, 1⟩
  else
    match runTransaction (step3Body (failAt == some .duringFlip) (versionCount cur)) cur with
    | (cur1, false) => ⟨cur1, 1⟩
    | (cur1, true) =>
      match runTransaction
          (step4Body (failAt == some .duringInsert) (nextVersion cur) snapDate batchId stg) cur1 with
      | (cur2, false) => ⟨cur2, 1⟩
      | (cur2, true) => ⟨cur2, 0⟩

/-- The table contents immediately before the step an error is injected
into. -/
def stateBeforeStep (p : FailPoint) (cur : List CurRow) : List CurRow :=
  match p with
  | .duringFlip => cur
  | .duringInsert => step3Result cur

/-- The primary-key joins of the snapshot insert resolve uniquely for fact
row `f`: each dimension table holds exactly one row of the matching id. -/
def resolvesUniquely (stg : StgDB) (f : FactRecord) : Prop :=
  (stg.persons.filter (fun p => p.person_id == f.person_id)).length = 1
  ∧ (stg.categories.filter (fun c => c.category_id == f.category_id)).length = 1
  ∧ (stg.locations.filter (fun l => l.location_id == f.location_id)).length = 1
  ∧ (stg.payments.filter
      (fun pm => pm.payment_method_id == f.payment_method_id)).length = 1

instance (stg : StgDB) (f : FactRecord) : Decidable (resolvesUniquely stg f) := by
  unfold resolvesUniquely
  infer_instance

lemma foldl_max_init_le (x : Int) (xs : List Int) : x ≤ xs.foldl max x := by
  induction xs generalizing x with
  | nil => exact le_refl x
  | cons z zs ih =>
    simp only [List.foldl_cons]
    exact le_trans (le_max_left x z) (ih (max x z))

lemma le_foldl_max (x : Int) (xs : List Int) (y : Int) (hy : y ∈ x :: xs) :
    y ≤ xs.foldl max x := by
  induction xs generalizing x with
  | nil =>
    simp only [List.mem_singleton] at hy
    simp [hy]
  | cons z zs ih =>
    simp only [List.foldl_cons]
    rcases List.mem_cons.1 hy with rfl | hy2
    · exact le_trans (le_max_left y z) (foldl_max_init_le _ _)
    · rcases List.mem_cons.1 hy2 with rfl | hy3
      · exact le_trans (le_max_right x y) (foldl_max_init_le _ _)
      · exact ih (max x z) (List.mem_cons_of_mem _ hy3)

lemma le_maxVersion {r : CurRow} {cur : List CurRow} (h : r ∈ cur) :
    r.snapshot_version ≤ maxVersion cur := by
  unfold maxVersion
  cases cur with
  | nil => cases h
  | cons x xs =>
    have hm : r.snapshot_version ∈ (x :: xs).map (·.snapshot_version) :=
      List.mem_map_of_mem _ h
    simp only [List.map_cons] at hm ⊢
    exact le_foldl_max _ _ _ hm

lemma versionCount_eq_zero_iff (cur : List CurRow) :
    versionCount cur = 0 ↔ cur = [] := by
  unfold versionCount
  rw [List.length_eq_zero, List.dedup_eq_nil, List.map_eq_nil_iff]

lemma mem_snapshotSelect {r : CurRow} {v : Int} {d b : String} {stg : StgDB}
    (hr : r ∈ snapshotSelect v d b stg) :
    r.is_latest = 1 ∧ r.snapshot_version = v := by
  simp only [snapshotSelect, List.mem_flatMap, List.mem_map] at hr
  obtain ⟨f, hf, p, hp, c, hc, l, hl, pm, hpm, rfl⟩ := hr
  exact ⟨rfl, rfl⟩

lemma length_flatMap_of_forall_one {α β : Type} (g : α → List β) :
    ∀ xs : List α, (∀ x ∈ xs, (g x).length = 1) →
      (xs.flatMap g).length = xs.length := by
  intro xs
  induction xs with
  | nil => intro _; rfl
  | cons x l ih =>
    intro h
    simp only [List.flatMap_cons, List.length_append, List.length_cons]
    rw [h x (List.mem_cons_self x l), ih (fun y hy => h y (List.mem_cons_of_mem _ hy))]
    omega

lemma snapshotSelect_row_length {stg : StgDB} {f : FactRecord}
    (hf : resolvesUniquely stg f) (v : Int) (d b : String) :
    ((stg.persons.filter (fun p => p.person_id == f.person_id)).flatMap fun p =>
      (stg.categories.filter (fun c => c.category_id == f.category_id)).flatMap fun c =>
        (stg.locations.filter (fun l => l.location_id == f.location_id)).flatMap fun l =>
          (stg.payments.filter
              (fun pm => pm.payment_method_id == f.payment_method_id)).map fun pm =>
            mkCurRow v d b f p c l pm).length = 1 := by
  obtain ⟨hp, hc, hl, hm⟩ := hf
  obtain ⟨p, hp1⟩ := List.length_eq_one.1 hp
  obtain ⟨c, hc1⟩ := List.length_eq_one.1 hc
  obtain ⟨l, hl1⟩ := List.length_eq_one.1 hl
  obtain ⟨m, hm1⟩ := List.length_eq_one.1 hm
  simp [hp1, hc1, hl1, hm1]

lemma snapshotSelect_length {stg : StgDB}
    (hres : ∀ f ∈ stg.fact, resolvesUniquely stg f) (v : Int) (d b : String) :
    (snapshotSelect v d b stg).length = stg.fact.length := by
  unfold snapshotSelect
  exact length_flatMap_of_forall_one _ _
    (fun f hf => snapshotSelect_row_length (hres f hf) v d b)

lemma runSnapshot_none_eq (stg : StgDB) (cur : List CurRow) (d b : String)
    (h : stg.fact ≠ []) :
    runSnapshot none stg cur d b =
      ⟨step3Result cur ++ snapshotSelect (nextVersion cur) d b stg, 0⟩ := by
  have hie : stg.fact.isEmpty = false := by
    cases hf : stg.fact with
    | nil => exact absurd hf h
    | cons a l => rfl
  unfold runSnapshot runTransaction step3Body step4Body step3Result
  simp [hie]

/-- C1: after a successful snapshot run on a non-empty staging fact table
(starting from a table whose `is_latest` flags are all `0` or `1`, and with
the insert's joins resolving), exactly one snapshot version is flagged
latest: a row of the final table has `is_latest = 1` exactly when it belongs
to the newly inserted version, rows of that version exist, and every
previously existing row is left with `is_latest = 0`. -/
theorem C1_single_latest_version (stg : StgDB) (cur : List CurRow)
    (d b : String) (hstg : stg.fact ≠ [])
    (hlatest : ∀ r ∈ cur, r.is_latest = 0 ∨ r.is_latest = 1)
    (hres : ∀ f ∈ stg.fact, resolvesUniquely stg f) :
    (runSnapshot none stg cur d b).exitCode = 0
    ∧ (∀ r ∈ (runSnapshot none stg cur d b).curated,
        r.is_latest = 1 ↔ r.snapshot_version = nextVersion cur)
    ∧ (∃ r ∈ (runSnapshot none stg cur d b).curated,
        r.snapshot_version = nextVersion cur) := by
  rw [runSnapshot_none_eq stg cur d b hstg]
  refine ⟨rfl, ?_, ?_⟩
  · intro r hr
    rcases List.mem_append.1 hr with h1 | h2
    · unfold step3Result at h1
      split at h1
      case isTrue hvc =>
        obtain ⟨r0, hr0, rfl⟩ := List.mem_map.1 h1
        have hv : (flipRow r0).snapshot_version = r0.snapshot_version := by
          unfold flipRow
          split <;> rfl
        have hlt : (flipRow r0).is_latest = 0 := by
          unfold flipRow
          rcases hlatest r0 hr0 with h0 | h1'
          · simp [h0]
          · simp [h1']
        constructor
        · intro hcontr
          rw [hlt] at hcontr
          exact absurd hcontr (by norm_num)
        · intro hveq
          rw [hv] at hveq
          have hle := le_maxVersion hr0
          unfold nextVersion at hveq
          omega
      case isFalse hvc =>
        have hnil : cur = [] :=
          (versionCount_eq_zero_iff cur).1 (Nat.eq_zero_of_not_pos hvc)
        subst hnil
        cases h1
    · obtain ⟨hl1, hv1⟩ := mem_snapshotSelect h2
      exact ⟨fun _ => hv1, fun _ => hl1⟩
  · have hlen := snapshotSelect_length hres (nextVersion cur) d b
    have hpos : 0 < (snapshotSelect (nextVersion cur) d b stg).length := by
      rw [hlen]
      exact List.length_pos.2 hstg
    obtain ⟨r, hr⟩ := List.exists_mem_of_ne_nil _ (List.length_pos.1 hpos)
    exact ⟨r, List.mem_append_right _ hr, (mem_snapshotSelect hr).2⟩

/-- C2: a successful run appends, to the flag-flipped previous table, exactly
one curated row per staging fact row (when the joins resolve uniquely), all
under the single new version `MAX + 1` (which is `1` on an empty table) with
`is_latest = 1`; the row built from a fact row and its matching dimension
rows — carrying the fact row's amount, date fields and quality score and the
dimension names, see `mkCurRow` — is inserted. -/
theorem C2_snapshot_copies_staging (stg : StgDB) (cur : List CurRow)
    (d b : String) (hstg : stg.fact ≠ [])
    (hres : ∀ f ∈ stg.fact, resolvesUniquely stg f) :
    (runSnapshot none stg cur d b).curated
        = step3Result cur ++ snapshotSelect (nextVersion cur) d b stg
    ∧ (runSnapshot none stg cur d b).exitCode = 0
    ∧ nextVersion cur = maxVersion cur + 1
    ∧ (cur = [] → nextVersion cur = 1)
    ∧ (snapshotSelect (nextVersion cur) d b stg).length = stg.fact.length
    ∧ (∀ r ∈ snapshotSelect (nextVersion cur) d b stg,
        r.snapshot_version = nextVersion cur ∧ r.is_latest = 1)
    ∧ (∀ f ∈ stg.fact, ∀ p ∈ stg.persons, ∀ c ∈ stg.categories,
        ∀ l ∈ stg.locations, ∀ pm ∈ stg.payments,
        p.person_id = f.person_id → c.category_id = f.category_id →
        l.location_id = f.location_id →
        pm.payment_method_id = f.payment_method_id →
        mkCurRow (nextVersion cur) d b f p c l pm
          ∈ snapshotSelect (nextVersion cur) d b stg) := by
  rw [runSnapshot_none_eq stg cur d b hstg]
  refine ⟨rfl, rfl, rfl, ?_, snapshotSelect_length hres _ d b, ?_, ?_⟩
  · intro hnil
    subst hnil
    rfl
  · intro r hr
    exact ⟨(mem_snapshotSelect hr).2, (mem_snapshotSelect hr).1⟩
  · intro f hf p hp c hc l hl pm hpm h1 h2 h3 h4
    simp only [snapshotSelect, List.mem_flatMap, List.mem_map]
    refine ⟨f, hf, p, List.mem_filter.2 ⟨hp, by simp [h1]⟩,
      c, List.mem_filter.2 ⟨hc, by simp [h2]⟩,
      l, List.mem_filter.2 ⟨hl, by simp [h3]⟩,
      pm, List.mem_filter.2 ⟨hpm, by simp [h4]⟩, rfl⟩

/-- C4: if a database error hits the flag-flip step or the insert step, the
enclosing transaction is rolled back — the curated table is left exactly as
it was before that step — and the script exits with a nonzero status. -/
theorem C4_rollback_on_error (stg : StgDB) (cur : List CurRow) (d b : String)
    (p : FailPoint) (hstg : stg.fact ≠ []) :
    (runSnapshot (some p) stg cur d b).curated = stateBeforeStep p cur
    ∧ (runSnapshot (some p) stg cur d b).exitCode ≠ 0 := by
  have hie : stg.fact.isEmpty = false := by
    cases hf : stg.fact with
    | nil => exact absurd hf hstg
    | cons a l => rfl
  cases p <;> refine ⟨?_, ?_⟩ <;>
    simp [runSnapshot, runTransaction, step3Body, step4Body, stateBeforeStep,
      step3Result, hie]

/-- A concrete staging fact row for the snapshot-stage instances. -/
def wfact1 : FactRecord :=
  { spending_id := 1
    person_id := 1
    location_id := 2
    category_id := 3
    payment_method_id := 4
    spending_date := some ⟨2022, 4, 1⟩
    spending_year := 2022
    spending_month := 4
    spending_day := 1
    spending_quarter := 2
    spending_day_of_week := some "Friday"
    amount_raw := some "5"
    amount_cleaned := 5
    currency_code := "SGD"
    description := some "Lunch"
    is_amount_parsed_successfully := true
    is_date_parsed_successfully := true
    data_quality_score := 100
    src_id := 1
    transform_batch_id := "B" }

/-- A concrete staging database for the snapshot-stage instances. -/
def wstg : StgDB :=
  { fact := [wfact1]
    persons := [⟨1, some "Alice"⟩]
    categories := [⟨3, some "Food", "Essential"⟩]
    locations := [⟨2, some "Mall", "Physical"⟩]
    payments := [⟨4, some "Visa", "Card"⟩] }

/-- A concrete previous state of `curated_spending_snapshots`: one version-1
row currently flagged latest. -/
def wcur : List CurRow :=
  [mkCurRow 1 "2025-10-10" "B0" wfact1 ⟨1, some "Alice"⟩
    ⟨3, some "Food", "Essential"⟩ ⟨2, some "Mall", "Physical"⟩
    ⟨4, some "Visa", "Card"⟩]

/-- Concrete instance for C1: rerunning the snapshot over a table holding a
latest version 1 leaves exactly the new version 2 flagged latest. -/
theorem C1_single_latest_version_witness :
    (runSnapshot none wstg wcur "2025-10-11" "B1").exitCode = 0
    ∧ (∀ r ∈ (runSnapshot none wstg wcur "2025-10-11" "B1").curated,
        r.is_latest = 1 ↔ r.snapshot_version = nextVersion wcur)
    ∧ (∃ r ∈ (runSnapshot none wstg wcur "2025-10-11" "B1").curated,
        r.snapshot_version = nextVersion wcur) :=
  C1_single_latest_version wstg wcur "2025-10-11" "B1" (by decide) (by decide)
    (by decide)

/-- Concrete instance for C2: the run appends one new-version row per staging
fact row to the flipped table. -/
theorem C2_snapshot_copies_staging_witness :
    (runSnapshot none wstg wcur "2025-10-11" "B1").curated
        = step3Result wcur ++ snapshotSelect (nextVersion wcur) "2025-10-11" "B1" wstg
    ∧ (runSnapshot none wstg wcur "2025-10-11" "B1").exitCode = 0
    ∧ nextVersion wcur = maxVersion wcur + 1
    ∧ (wcur = [] → nextVersion wcur = 1)
    ∧ (snapshotSelect (nextVersion wcur) "2025-10-11" "B1" wstg).length
        = wstg.fact.length
    ∧ (∀ r ∈ snapshotSelect (nextVersion wcur) "2025-10-11" "B1" wstg,
        r.snapshot_version = nextVersion wcur ∧ r.is_latest = 1)
    ∧ (∀ f ∈ wstg.fact, ∀ p ∈ wstg.persons, ∀ c ∈ wstg.categories,
        ∀ l ∈ wstg.locations, ∀ pm ∈ wstg.payments,
        p.person_id = f.person_id → c.category_id = f.category_id →
        l.location_id = f.location_id →
        pm.payment_method_id = f.payment_method_id →
        mkCurRow (nextVersion wcur) "2025-10-11" "B1" f p c l pm
          ∈ snapshotSelect (nextVersion wcur) "2025-10-11" "B1" wstg) :=
  C2_snapshot_copies_staging wstg wcur "2025-10-11" "B1" (by decide) (by decide)

/-- Concrete instance for C4: an error during the insert step leaves the
table as it was after the committed flip step and exits nonzero. -/
theorem C4_rollback_on_error_witness :
    (runSnapshot (some .duringInsert) wstg wcur "2025-10-11" "B1").curated
        = stateBeforeStep .duringInsert wcur
    ∧ (runSnapshot (some .duringInsert) wstg wcur "2025-10-11" "B1").exitCode ≠ 0 :=
  C4_rollback_on_error wstg wcur "2025-10-11" "B1" .duringInsert (by decide)
